import Mathlib

/-!
Shallow embedding of the spool-key NFC firmware core
(`src/firmware/App/Src/st25r3911b.cpp`, `nfcClass.cpp`, `nfcTaskManager.cpp`)
together with proofs about its claims.

Bytes are modelled as `Nat` with explicit `% 256` where the C++ code narrows
to `uint8_t`.  `std::string` values are modelled as byte lists (`List Nat`).
The SPI master is an external collaborator; it is modelled as an opaque
stateful device, polymorphic in its state type.  Every controller operation
additionally returns the list of bus transactions (the transmitted byte
vectors) it performed, so that "no bus transaction happens" is expressible.
-/

namespace SpoolKey

/-- Status enum `NFC::NFCStatus` from `st25r3911b.h`. -/
inductive NFCStatus
  | OK
  | ERROR
  | TIMEOUT
  | INVALID_PARAM
  | NOT_INITIALIZED
  | FIFO_OVERFLOW
  | FIFO_UNDERFLOW
  | CRC_ERROR
  | COLLISION_ERROR
  | NO_TAG_FOUND
  | UNSUPPORTED_TAG
  | COMMUNICATION_ERROR
  deriving DecidableEq, Repr

/-- Status enum `SPI::SPIStatus` from `spiClass.h`. -/
inductive SPIStatus
  | OK
  | ERROR
  | BUSY
  | TIMEOUT
  | INVALID_PARAM
  deriving DecidableEq, Repr

/-- Protocol enum `NFC::NFCProtocol` from `st25r3911b.h`. -/
inductive NFCProtocol
  | NFC_A
  | NFC_B
  | NFC_F
  | NFC_V
  | NFC_P2P
  | MIFARE_CLASSIC
  deriving DecidableEq, Repr

/-- Field state enum `NFC::NFCField` from `st25r3911b.h`. -/
inductive NFCField
  | OFF
  | ON
  deriving DecidableEq, Repr

-- Register addresses, commands and bit masks from `st25r3911b_registers.h`.

def REG_IO_CONF1 : Nat := 0x00
def REG_OP_CONTROL : Nat := 0x02
def REG_MODE : Nat := 0x03
def REG_BIT_RATE : Nat := 0x04
def REG_ISO14443A_NFC : Nat := 0x05
def REG_ISO14443B : Nat := 0x06
def REG_STREAM_MODE : Nat := 0x07
def REG_P2P_RX_CONF : Nat := 0x0D
def REG_IC_IDENTITY : Nat := 0x27
def REG_FIFO_RX_STATUS1 : Nat := 0x28
def REG_FIFO_RX_STATUS2 : Nat := 0x29
def REG_IRQ_MAIN : Nat := 0x36
def REG_IRQ_TIMER_NFC : Nat := 0x37
def REG_IRQ_ERROR_WUP : Nat := 0x38
def REG_IRQ_MASK_MAIN : Nat := 0x3A
def REG_IRQ_MASK_TIMER_NFC : Nat := 0x3B
def REG_IRQ_MASK_ERROR_WUP : Nat := 0x3C
def REG_FIFO_LOAD : Nat := 0x3E
def REG_FIFO_DATA : Nat := 0x3F

def CMD_SET_DEFAULT : Nat := 0xC1
def CMD_CLEAR_FIFO : Nat := 0xC2
def CMD_TRANSMIT_WITH_CRC : Nat := 0xC4
def CMD_TRANSMIT_WITHOUT_CRC : Nat := 0xC5

def MODE_OM_MASK : Nat := 0x3C
def MODE_OM_NFC : Nat := 0x00
def MODE_OM_ISO14443A : Nat := 0x04
def MODE_OM_ISO14443B : Nat := 0x08
def MODE_OM_FELICA : Nat := 0x0C
def MODE_OM_SUBCARRIER : Nat := 0x10
def MODE_TR_EN : Nat := 0x01

def OP_CONTROL_RX_EN : Nat := 0x80
def OP_CONTROL_RX_MAN : Nat := 0x20
def OP_CONTROL_TX_CRC : Nat := 0x10
def OP_CONTROL_EN : Nat := 0x01

def IRQ_MAIN_RXS : Nat := 0x20
def IRQ_MAIN_RXE : Nat := 0x10
def IRQ_MAIN_TXE : Nat := 0x08
def IRQ_MAIN_COL : Nat := 0x04

def FIFO_SIZE : Nat := 96
def FIFO_WATER_LEVEL : Nat := 64

def SPI_CMD_READ : Nat := 0x40
def SPI_CMD_WRITE : Nat := 0x00

def IC_IDENTITY_VALUE : Nat := 0x09
def IC_TYPE_MASK : Nat := 0x1F

/-- The external SPI master collaborator (`SPI::SPIMaster`), modelled as a
deterministic stateful device with state type `σ`.  `Transmit` consumes the
tx bytes and yields a status; `TransmitReceive` additionally yields rx bytes.
Slave-select assertion has no observable effect in the model. -/
structure SPIMaster (σ : Type) where
  isInitialized : Bool
  transmit : σ → List Nat → SPIStatus × σ
  transmitReceive : σ → List Nat → SPIStatus × List Nat × σ

/-- The state of an `NFC::ST25R3911B` controller object plus its SPI device.
`defaultProtocol` comes from `NFCConfig`; a non-null SPI master pointer is
assumed (the null-pointer configuration is outside all claims). -/
structure Ctrl (σ : Type) where
  spi : SPIMaster σ
  dev : σ
  initialized : Bool
  currentProtocol : NFCProtocol
  fieldState : NFCField
  interruptPending : Bool
  defaultProtocol : NFCProtocol

/-- One bus transaction: the byte vector handed to the SPI master. -/
abbrev BusTx := List Nat

/-- Embeds `ST25R3911B::isValidRegister`. -/
def isValidRegister (reg : Nat) : Bool := decide (reg ≤ REG_FIFO_DATA)

/-- Embeds `ST25R3911B::isValidCommand`. -/
def isValidCommand (cmd : Nat) : Bool := decide (0xC0 ≤ cmd)

/-- Embeds `ST25R3911B::convertSpiStatus`. -/
def convertSpiStatus : SPIStatus → NFCStatus
  | SPIStatus.OK => NFCStatus.OK
  | SPIStatus.TIMEOUT => NFCStatus.TIMEOUT
  | SPIStatus.INVALID_PARAM => NFCStatus.INVALID_PARAM
  | _ => NFCStatus.COMMUNICATION_ERROR

/-- Embeds `ST25R3911B::ReadRegister`.  The returned `Option Nat` is the out
parameter `value`: `none` means the C++ code left it unassigned. -/
def ReadRegister {σ : Type} (c : Ctrl σ) (reg : Nat) :
    NFCStatus × Option Nat × Ctrl σ × List BusTx :=
  if !c.initialized || !isValidRegister reg then
    (NFCStatus.INVALID_PARAM, none, c, [])
  else
    let tx : List Nat := [(reg ||| SPI_CMD_READ) % 256, 0x00]
    let r := c.spi.transmitReceive c.dev tx
    let c' := { c with dev := r.2.2 }
    if r.1 ≠ SPIStatus.OK ∨ r.2.1.length < 2 then
      (convertSpiStatus r.1, none, c', [tx])
    else
      (NFCStatus.OK, r.2.1.get? 1, c', [tx])

/-- Embeds `ST25R3911B::WriteRegister`. -/
def WriteRegister {σ : Type} (c : Ctrl σ) (reg v : Nat) :
    NFCStatus × Ctrl σ × List BusTx :=
  if !c.initialized || !isValidRegister reg then
    (NFCStatus.INVALID_PARAM, c, [])
  else
    let tx : List Nat := [(reg ||| SPI_CMD_WRITE) % 256, v % 256]
    let r := c.spi.transmit c.dev tx
    (convertSpiStatus r.1, { c with dev := r.2 }, [tx])

/-- Loop body of `ST25R3911B::ReadRegisters`: reads registers
`startReg + i` for `i = 0, …`, aborting on the first failure and keeping
the values read so far. -/
def readRegistersGo {σ : Type} :
    Ctrl σ → Nat → Nat → Nat → NFCStatus × List Nat × Ctrl σ × List BusTx
  | c, _, _, 0 => (NFCStatus.OK, [], c, [])
  | c, startReg, i, n + 1 =>
    let r := ReadRegister c ((startReg + i) % 256)
    if r.1 ≠ NFCStatus.OK then (r.1, [], r.2.2.1, r.2.2.2)
    else
      let rest := readRegistersGo r.2.2.1 startReg (i + 1) n
      (rest.1, (r.2.1.getD 0) :: rest.2.1, rest.2.2.1, r.2.2.2 ++ rest.2.2.2)

/-- Embeds `ST25R3911B::ReadRegisters`. -/
def ReadRegisters {σ : Type} (c : Ctrl σ) (startReg length : Nat) :
    NFCStatus × List Nat × Ctrl σ × List BusTx :=
  if !c.initialized || !isValidRegister startReg || decide (length = 0) then
    (NFCStatus.INVALID_PARAM, [], c, [])
  else
    readRegistersGo c startReg 0 length

/-- Loop body of `ST25R3911B::WriteRegisters`. -/
def writeRegistersGo {σ : Type} :
    Ctrl σ → Nat → Nat → List Nat → NFCStatus × Ctrl σ × List BusTx
  | c, _, _, [] => (NFCStatus.OK, c, [])
  | c, startReg, i, v :: rest =>
    let r := WriteRegister c ((startReg + i) % 256) v
    if r.1 ≠ NFCStatus.OK then r
    else
      let r2 := writeRegistersGo r.2.1 startReg (i + 1) rest
      (r2.1, r2.2.1, r.2.2 ++ r2.2.2)

/-- Embeds `ST25R3911B::WriteRegisters`. -/
def WriteRegisters {σ : Type} (c : Ctrl σ) (startReg : Nat) (data : List Nat) :
    NFCStatus × Ctrl σ × List BusTx :=
  if !c.initialized || !isValidRegister startReg || decide (data = []) then
    (NFCStatus.INVALID_PARAM, c, [])
  else
    writeRegistersGo c startReg 0 data

/-- Embeds `ST25R3911B::ExecuteCommand`. -/
def ExecuteCommand {σ : Type} (c : Ctrl σ) (cmd : Nat) :
    NFCStatus × Ctrl σ × List BusTx :=
  if !c.initialized || !isValidCommand cmd then
    (NFCStatus.INVALID_PARAM, c, [])
  else
    let r := c.spi.transmit c.dev [cmd]
    (convertSpiStatus r.1, { c with dev := r.2 }, [[cmd]])

/-- Embeds `ST25R3911B::ModifyRegister` (read-modify-write; `~mask` on `uint8_t`
is `255 ^^^ (mask % 256)`). -/
def ModifyRegister {σ : Type} (c : Ctrl σ) (reg mask value : Nat) :
    NFCStatus × Ctrl σ × List BusTx :=
  let r := ReadRegister c reg
  if r.1 ≠ NFCStatus.OK then (r.1, r.2.2.1, r.2.2.2)
  else
    let regValue := ((r.2.1.getD 0) &&& (255 ^^^ (mask % 256))) ||| (value &&& mask)
    let w := WriteRegister r.2.2.1 reg regValue
    (w.1, w.2.1, r.2.2.2 ++ w.2.2)

/-- Embeds `ST25R3911B::GetFifoStatus`; the `Option` models the two out
parameters `bytesInFifo`/`fifoFull`, unassigned on failure. -/
def GetFifoStatus {σ : Type} (c : Ctrl σ) :
    NFCStatus × Option (Nat × Bool) × Ctrl σ × List BusTx :=
  let r1 := ReadRegister c REG_FIFO_RX_STATUS1
  if r1.1 ≠ NFCStatus.OK then (r1.1, none, r1.2.2.1, r1.2.2.2)
  else
    let r2 := ReadRegister r1.2.2.1 REG_FIFO_RX_STATUS2
    if r2.1 ≠ NFCStatus.OK then (r2.1, none, r2.2.2.1, r1.2.2.2 ++ r2.2.2.2)
    else
      let s1 := r1.2.1.getD 0
      let s2 := r2.2.1.getD 0
      let bytesInFifo := if s2 &&& 0x80 ≠ 0 then (s1 &&& 0x7F) ||| 0x80 else s1 &&& 0x7F
      (NFCStatus.OK, some (bytesInFifo, decide (bytesInFifo ≥ FIFO_SIZE)),
        r2.2.2.1, r1.2.2.2 ++ r2.2.2.2)

/-- Embeds `ST25R3911B::ClearFifo`. -/
def ClearFifo {σ : Type} (c : Ctrl σ) : NFCStatus × Ctrl σ × List BusTx :=
  ExecuteCommand c CMD_CLEAR_FIFO

/-- Loop body of `ST25R3911B::ReadFifo`. -/
def readFifoGo {σ : Type} : Ctrl σ → Nat → NFCStatus × List Nat × Ctrl σ × List BusTx
  | c, 0 => (NFCStatus.OK, [], c, [])
  | c, n + 1 =>
    let r := ReadRegister c REG_FIFO_DATA
    if r.1 ≠ NFCStatus.OK then (r.1, [], r.2.2.1, r.2.2.2)
    else
      let rest := readFifoGo r.2.2.1 n
      (rest.1, (r.2.1.getD 0) :: rest.2.1, rest.2.2.1, r.2.2.2 ++ rest.2.2.2)

/-- Embeds `ST25R3911B::ReadFifo`; the returned list is the contents of the out
parameter `data` (cleared, then filled). -/
def ReadFifo {σ : Type} (c : Ctrl σ) (length : Nat) :
    NFCStatus × List Nat × Ctrl σ × List BusTx :=
  if !c.initialized || decide (length = 0) then
    (NFCStatus.INVALID_PARAM, [], c, [])
  else
    readFifoGo c length

/-- Loop body of `ST25R3911B::WriteFifo`. -/
def writeFifoGo {σ : Type} : Ctrl σ → List Nat → NFCStatus × Ctrl σ × List BusTx
  | c, [] => (NFCStatus.OK, c, [])
  | c, b :: rest =>
    let r := WriteRegister c REG_FIFO_LOAD b
    if r.1 ≠ NFCStatus.OK then r
    else
      let r2 := writeFifoGo r.2.1 rest
      (r2.1, r2.2.1, r.2.2 ++ r2.2.2)

/-- Embeds `ST25R3911B::WriteFifo`. -/
def WriteFifo {σ : Type} (c : Ctrl σ) (data : List Nat) :
    NFCStatus × Ctrl σ × List BusTx :=
  if !c.initialized || decide (data = []) then
    (NFCStatus.INVALID_PARAM, c, [])
  else
    writeFifoGo c data

/-- Embeds `ST25R3911B::GetInterruptStatus`; the three `Option Nat` values model the
out parameters `mainIrq`, `timerNfcIrq`, `errorWupIrq`. -/
def GetInterruptStatus {σ : Type} (c : Ctrl σ) :
    NFCStatus × Option Nat × Option Nat × Option Nat × Ctrl σ × List BusTx :=
  let r1 := ReadRegister c REG_IRQ_MAIN
  if r1.1 ≠ NFCStatus.OK then (r1.1, r1.2.1, none, none, r1.2.2.1, r1.2.2.2)
  else
    let r2 := ReadRegister r1.2.2.1 REG_IRQ_TIMER_NFC
    if r2.1 ≠ NFCStatus.OK then
      (r2.1, r1.2.1, r2.2.1, none, r2.2.2.1, r1.2.2.2 ++ r2.2.2.2)
    else
      let r3 := ReadRegister r2.2.2.1 REG_IRQ_ERROR_WUP
      (r3.1, r1.2.1, r2.2.1, r3.2.1, r3.2.2.1, r1.2.2.2 ++ r2.2.2.2 ++ r3.2.2.2)

/-- Embeds `ST25R3911B::ClearInterrupts`. -/
def ClearInterrupts {σ : Type} (c : Ctrl σ) (mainIrq timerNfcIrq errorWupIrq : Nat) :
    NFCStatus × Ctrl σ × List BusTx :=
  let r1 := WriteRegister c REG_IRQ_MAIN mainIrq
  if r1.1 ≠ NFCStatus.OK then r1
  else
    let r2 := WriteRegister r1.2.1 REG_IRQ_TIMER_NFC timerNfcIrq
    if r2.1 ≠ NFCStatus.OK then (r2.1, r2.2.1, r1.2.2 ++ r2.2.2)
    else
      let r3 := WriteRegister r2.2.1 REG_IRQ_ERROR_WUP errorWupIrq
      (r3.1, r3.2.1, r1.2.2 ++ r2.2.2 ++ r3.2.2)

/-- Embeds `ST25R3911B::SetInterruptMasks`. -/
def SetInterruptMasks {σ : Type} (c : Ctrl σ) (mainMask timerNfcMask errorWupMask : Nat) :
    NFCStatus × Ctrl σ × List BusTx :=
  let r1 := WriteRegister c REG_IRQ_MASK_MAIN mainMask
  if r1.1 ≠ NFCStatus.OK then r1
  else
    let r2 := WriteRegister r1.2.1 REG_IRQ_MASK_TIMER_NFC timerNfcMask
    if r2.1 ≠ NFCStatus.OK then (r2.1, r2.2.1, r1.2.2 ++ r2.2.2)
    else
      let r3 := WriteRegister r2.2.1 REG_IRQ_MASK_ERROR_WUP errorWupMask
      (r3.1, r3.2.1, r1.2.2 ++ r2.2.2 ++ r3.2.2)

/-- Embeds `ST25R3911B::Reset` (the `vTaskDelay` settle wait has no observable
effect in the model). -/
def Reset {σ : Type} (c : Ctrl σ) : NFCStatus × Ctrl σ × List BusTx :=
  let r1 := ExecuteCommand c CMD_SET_DEFAULT
  if r1.1 ≠ NFCStatus.OK then r1
  else
    let r2 := ClearFifo r1.2.1
    if r2.1 ≠ NFCStatus.OK then (r2.1, r2.2.1, r1.2.2 ++ r2.2.2)
    else
      let r3 := ClearInterrupts r2.2.1 0xFF 0xFF 0xFF
      (r3.1, r3.2.1, r1.2.2 ++ r2.2.2 ++ r3.2.2)

/-- Embeds `ST25R3911B::GetIdentity`. -/
def GetIdentity {σ : Type} (c : Ctrl σ) :
    NFCStatus × Option Nat × Ctrl σ × List BusTx :=
  ReadRegister c REG_IC_IDENTITY

/-- Embeds `ST25R3911B::configureDefaults`. -/
def configureDefaults {σ : Type} (c : Ctrl σ) : NFCStatus × Ctrl σ × List BusTx :=
  let r1 := WriteRegister c REG_OP_CONTROL
    (OP_CONTROL_RX_EN ||| OP_CONTROL_RX_MAN ||| OP_CONTROL_TX_CRC)
  if r1.1 ≠ NFCStatus.OK then r1
  else
    let r2 := SetInterruptMasks r1.2.1
      (IRQ_MAIN_RXS ||| IRQ_MAIN_RXE ||| IRQ_MAIN_TXE ||| IRQ_MAIN_COL) 0x00 0x00
    if r2.1 ≠ NFCStatus.OK then (r2.1, r2.2.1, r1.2.2 ++ r2.2.2)
    else
      let r3 := WriteRegister r2.2.1 REG_IO_CONF1 FIFO_WATER_LEVEL
      (r3.1, r3.2.1, r1.2.2 ++ r2.2.2 ++ r3.2.2)

/-- Embeds `ST25R3911B::configureProtocol`. -/
def configureProtocol {σ : Type} (c : Ctrl σ) (protocol : NFCProtocol) :
    NFCStatus × Ctrl σ × List BusTx :=
  let step : Nat × (NFCStatus × Ctrl σ × List BusTx) :=
    match protocol with
    | NFCProtocol.NFC_A => (MODE_OM_ISO14443A, WriteRegister c REG_ISO14443A_NFC 0x88)
    | NFCProtocol.NFC_B => (MODE_OM_ISO14443B, WriteRegister c REG_ISO14443B 0x00)
    | NFCProtocol.NFC_F => (MODE_OM_FELICA, WriteRegister c REG_BIT_RATE 0x00)
    | NFCProtocol.NFC_V => (MODE_OM_SUBCARRIER, WriteRegister c REG_STREAM_MODE 0x00)
    | NFCProtocol.NFC_P2P => (MODE_OM_NFC, WriteRegister c REG_P2P_RX_CONF 0x00)
    | NFCProtocol.MIFARE_CLASSIC => (MODE_OM_ISO14443A, WriteRegister c REG_ISO14443A_NFC 0x88)
  let r := step.2
  if r.1 ≠ NFCStatus.OK then r
  else
    let r2 := ModifyRegister r.2.1 REG_MODE MODE_OM_MASK step.1
    (r2.1, r2.2.1, r.2.2 ++ r2.2.2)

/-- Embeds `ST25R3911B::SetProtocol`. -/
def SetProtocol {σ : Type} (c : Ctrl σ) (protocol : NFCProtocol) :
    NFCStatus × Ctrl σ × List BusTx :=
  let r := configureProtocol c protocol
  if r.1 = NFCStatus.OK then (r.1, { r.2.1 with currentProtocol := protocol }, r.2.2)
  else r

/-- Embeds `ST25R3911B::Initialize`. -/
def Initialize {σ : Type} (c : Ctrl σ) : NFCStatus × Ctrl σ × List BusTx :=
  if c.initialized then (NFCStatus.OK, c, [])
  else if !c.spi.isInitialized then (NFCStatus.NOT_INITIALIZED, c, [])
  else
    let r1 := Reset c
    if r1.1 ≠ NFCStatus.OK then r1
    else
      let r2 := GetIdentity r1.2.1
      if r2.1 ≠ NFCStatus.OK then (r2.1, r2.2.2.1, r1.2.2 ++ r2.2.2.2)
      else if (r2.2.1.getD 0 &&& IC_TYPE_MASK) ≠ IC_IDENTITY_VALUE then
        (NFCStatus.ERROR, r2.2.2.1, r1.2.2 ++ r2.2.2.2)
      else
        let r3 := configureDefaults r2.2.2.1
        if r3.1 ≠ NFCStatus.OK then (r3.1, r3.2.1, r1.2.2 ++ r2.2.2.2 ++ r3.2.2)
        else
          let r4 := SetProtocol r3.2.1 c.defaultProtocol
          if r4.1 ≠ NFCStatus.OK then
            (r4.1, r4.2.1, r1.2.2 ++ r2.2.2.2 ++ r3.2.2 ++ r4.2.2)
          else
            (NFCStatus.OK, { r4.2.1 with initialized := true },
              r1.2.2 ++ r2.2.2.2 ++ r3.2.2 ++ r4.2.2)

/-- Embeds `ST25R3911B::Receive`.  `intObserved` abstracts `waitForInterrupt`: it is
`true` exactly when the environment set `_interruptPending` before the
timeout deadline (in which case the wait clears the flag and returns `OK`),
and `false` when the wait loop hit its deadline and returned `TIMEOUT`.
`buf` is the caller's output vector `data`; the returned list is its final
contents. -/
def Receive {σ : Type} (c : Ctrl σ) (buf : List Nat) (intObserved : Bool) :
    NFCStatus × List Nat × Ctrl σ × List BusTx :=
  if !c.initialized then (NFCStatus.NOT_INITIALIZED, buf, c, [])
  else if !intObserved then (NFCStatus.TIMEOUT, buf, c, [])
  else
    let c0 := { c with interruptPending := false }
    let ri := GetInterruptStatus c0
    if ri.1 ≠ NFCStatus.OK then (ri.1, buf, ri.2.2.2.2.1, ri.2.2.2.2.2)
    else
      let mainIrq := ri.2.1.getD 0
      if mainIrq &&& IRQ_MAIN_COL ≠ 0 then
        (NFCStatus.COLLISION_ERROR, buf, ri.2.2.2.2.1, ri.2.2.2.2.2)
      else if mainIrq &&& IRQ_MAIN_RXE ≠ 0 then
        let rf := GetFifoStatus ri.2.2.2.2.1
        if rf.1 ≠ NFCStatus.OK then
          (rf.1, buf, rf.2.2.1, ri.2.2.2.2.2 ++ rf.2.2.2)
        else
          let bytesInFifo := (rf.2.1.getD (0, false)).1
          let rd :=
            if bytesInFifo > 0 then ReadFifo rf.2.2.1 bytesInFifo
            else (NFCStatus.OK, buf, rf.2.2.1, [])
          let rc := ClearInterrupts rd.2.2.1 mainIrq (ri.2.2.1.getD 0) (ri.2.2.2.1.getD 0)
          (rd.1, rd.2.1, rc.2.1, ri.2.2.2.2.2 ++ rf.2.2.2 ++ rd.2.2.2 ++ rc.2.2)
      else
        (NFCStatus.TIMEOUT, buf, ri.2.2.2.2.1, ri.2.2.2.2.2)

-- ===========================================================================
-- NDEF record codec (`nfcClass.cpp`, `TagWriter` / `TagReader`)
-- ===========================================================================

/-- Record type enum `NFC::NDEFRecordType` from `nfcClass.h`. -/
inductive NDEFRecordType
  | TEXT
  | URI
  | MIME
  | WIFI
  | PHONE
  | EMAIL
  | VCARD
  | UNKNOWN
  deriving DecidableEq, Repr

/-- Record struct `NFC::NDEFRecord` from `nfcClass.h`; `std::string` fields
are byte lists.  A default-constructed record has empty strings and vectors;
the C++ enum field `type` is then indeterminate, modelled as `UNKNOWN`. -/
structure NDEFRecord where
  type : NDEFRecordType := NDEFRecordType.UNKNOWN
  payload : List Nat := []
  rawData : List Nat := []
  language : List Nat := []
  mimeType : List Nat := []
  deriving DecidableEq, Repr

-- Byte lists of the ASCII string literals used by the codec.

def bytesHttpWww : List Nat := [0x68, 0x74, 0x74, 0x70, 0x3A, 0x2F, 0x2F, 0x77, 0x77, 0x77, 0x2E]
def bytesHttpsWww : List Nat := [0x68, 0x74, 0x74, 0x70, 0x73, 0x3A, 0x2F, 0x2F, 0x77, 0x77, 0x77, 0x2E]
def bytesHttp : List Nat := [0x68, 0x74, 0x74, 0x70, 0x3A, 0x2F, 0x2F]
def bytesHttps : List Nat := [0x68, 0x74, 0x74, 0x70, 0x73, 0x3A, 0x2F, 0x2F]
def bytesTel : List Nat := [0x74, 0x65, 0x6C, 0x3A]
def bytesMailto : List Nat := [0x6D, 0x61, 0x69, 0x6C, 0x74, 0x6F, 0x3A]
def bytesT : List Nat := [0x54]
def bytesU : List Nat := [0x55]
def bytesWsc : List Nat :=
  [0x61, 0x70, 0x70, 0x6C, 0x69, 0x63, 0x61, 0x74, 0x69, 0x6F, 0x6E, 0x2F,
   0x76, 0x6E, 0x64, 0x2E, 0x77, 0x66, 0x61, 0x2E, 0x77, 0x73, 0x63]
def bytesVcard : List Nat := [0x74, 0x65, 0x78, 0x74, 0x2F, 0x76, 0x63, 0x61, 0x72, 0x64]

/-- Decoder table `prefixes` of `TagReader::parseNDEFRecord` (36 entries). -/
def uriPrefixTable : List (List Nat) :=
  [ [],
    bytesHttpWww,
    bytesHttpsWww,
    bytesHttp,
    bytesHttps,
    bytesTel,
    bytesMailto,
    [0x66, 0x74, 0x70, 0x3A, 0x2F, 0x2F, 0x61, 0x6E, 0x6F, 0x6E, 0x79, 0x6D,
     0x6F, 0x75, 0x73, 0x3A, 0x61, 0x6E, 0x6F, 0x6E, 0x79, 0x6D, 0x6F, 0x75,
     0x73, 0x40],
    [0x66, 0x74, 0x70, 0x3A, 0x2F, 0x2F, 0x66, 0x74, 0x70, 0x2E],
    [0x66, 0x74, 0x70, 0x73, 0x3A, 0x2F, 0x2F],
    [0x73, 0x66, 0x74, 0x70, 0x3A, 0x2F, 0x2F],
    [0x73, 0x6D, 0x62, 0x3A, 0x2F, 0x2F],
    [0x6E, 0x66, 0x73, 0x3A, 0x2F, 0x2F],
    [0x66, 0x74, 0x70, 0x3A, 0x2F, 0x2F],
    [0x64, 0x61, 0x76, 0x3A, 0x2F, 0x2F],
    [0x6E, 0x65, 0x77, 0x73, 0x3A],
    [0x74, 0x65, 0x6C, 0x6E, 0x65, 0x74, 0x3A, 0x2F, 0x2F],
    [0x69, 0x6D, 0x61, 0x70, 0x3A],
    [0x72, 0x74, 0x73, 0x70, 0x3A, 0x2F, 0x2F],
    [0x75, 0x72, 0x6E, 0x3A],
    [0x70, 0x6F, 0x70, 0x3A],
    [0x73, 0x69, 0x70, 0x3A],
    [0x73, 0x69, 0x70, 0x73, 0x3A],
    [0x74, 0x66, 0x74, 0x70, 0x3A],
    [0x62, 0x74, 0x73, 0x70, 0x70, 0x3A, 0x2F, 0x2F],
    [0x62, 0x74, 0x6C, 0x32, 0x63, 0x61, 0x70, 0x3A, 0x2F, 0x2F],
    [0x62, 0x74, 0x67, 0x6F, 0x65, 0x70, 0x3A, 0x2F, 0x2F],
    [0x74, 0x63, 0x70, 0x6F, 0x62, 0x65, 0x78, 0x3A, 0x2F, 0x2F],
    [0x69, 0x72, 0x64, 0x61, 0x6F, 0x62, 0x65, 0x78, 0x3A, 0x2F, 0x2F],
    [0x66, 0x69, 0x6C, 0x65, 0x3A, 0x2F, 0x2F],
    [0x75, 0x72, 0x6E, 0x3A, 0x65, 0x70, 0x63, 0x3A, 0x69, 0x64, 0x3A],
    [0x75, 0x72, 0x6E, 0x3A, 0x65, 0x70, 0x63, 0x3A, 0x74, 0x61, 0x67, 0x3A],
    [0x75, 0x72, 0x6E, 0x3A, 0x65, 0x70, 0x63, 0x3A, 0x70, 0x61, 0x74, 0x3A],
    [0x75, 0x72, 0x6E, 0x3A, 0x65, 0x70, 0x63, 0x3A, 0x72, 0x61, 0x77, 0x3A],
    [0x75, 0x72, 0x6E, 0x3A, 0x65, 0x70, 0x63, 0x3A],
    [0x75, 0x72, 0x6E, 0x3A, 0x6E, 0x66, 0x63, 0x3A] ]

/-- Embeds `TagWriter::getURIPrefix` (renamed to satisfy identifier rules):
first-match lookup of the URI prefix code byte.  `uri.substr(0, n) == p`
holds exactly when `uri.take n = p`. -/
def getURIPrefixCode (uri : List Nat) : Nat :=
  if uri.take 11 = bytesHttpWww then 0x01
  else if uri.take 12 = bytesHttpsWww then 0x02
  else if uri.take 7 = bytesHttp then 0x03
  else if uri.take 8 = bytesHttps then 0x04
  else if uri.take 4 = bytesTel then 0x05
  else if uri.take 7 = bytesMailto then 0x06
  else 0x00

/-- Embeds the prefix-stripping loop in the URI case of
`TagWriter::createNDEFRecord`: only the four web prefixes are stripped. -/
def stripWebPrefixes (uri : List Nat) : List Nat :=
  if uri.take 11 = bytesHttpWww then uri.drop 11
  else if uri.take 12 = bytesHttpsWww then uri.drop 12
  else if uri.take 7 = bytesHttp then uri.drop 7
  else if uri.take 8 = bytesHttps then uri.drop 8
  else uri

/-- Assembly of the record byte vector at the end of
`TagWriter::createNDEFRecord`: flag/TNF byte, type length, payload length
(both lengths narrowed to `uint8_t`), type bytes, payload bytes. -/
def buildRecordBytes (tnf : Nat) (type payload : List Nat) : List Nat :=
  tnf :: (type.length % 256) :: (payload.length % 256) :: (type ++ payload)

/-- Embeds `TagWriter::createNDEFRecord`; `none` is `INVALID_PARAM`. -/
def createNDEFRecord (record : NDEFRecord) : Option (List Nat) :=
  match record.type with
  | NDEFRecordType.TEXT =>
    some (buildRecordBytes 0x01 bytesT
      ((record.language.length % 256) :: (record.language ++ record.payload)))
  | NDEFRecordType.URI =>
    some (buildRecordBytes 0x01 bytesU
      (getURIPrefixCode record.payload :: stripWebPrefixes record.payload))
  | NDEFRecordType.MIME =>
    some (buildRecordBytes 0x02 record.mimeType record.payload)
  | NDEFRecordType.WIFI =>
    some (buildRecordBytes 0x02 bytesWsc record.payload)
  | NDEFRecordType.PHONE =>
    some (buildRecordBytes 0x01 bytesU (0x05 :: record.payload))
  | NDEFRecordType.EMAIL =>
    some (buildRecordBytes 0x01 bytesU (0x06 :: record.payload))
  | NDEFRecordType.VCARD =>
    some (buildRecordBytes 0x02 bytesVcard record.payload)
  | NDEFRecordType.UNKNOWN => none

/-- ORs a flag bit into the first byte of an encoded record
(`recordData[0] |= flag` in `TagWriter::createNDEFMessage`). -/
def orHead (flag : Nat) : List Nat → List Nat
  | [] => []
  | b :: rest => (b ||| flag) :: rest

/-- Encodes each record of the message in order
(the per-record loop of `TagWriter::createNDEFMessage`),
aborting with `none` on the first record that fails to encode. -/
def encodeRecords : List NDEFRecord → Option (List (List Nat))
  | [] => some []
  | r :: rs =>
    (createNDEFRecord r).bind fun d =>
      (encodeRecords rs).map fun rest => d :: rest

/-- ORs the message-end flag 0x40 into the last chunk. -/
def applyEndFlag : List (List Nat) → List (List Nat)
  | [] => []
  | [d] => [orHead 0x40 d]
  | d :: rest => d :: applyEndFlag rest

/-- ORs the message-begin flag 0x80 into the first chunk and the
message-end flag 0x40 into the last chunk, as the index tests
`i == 0` / `i == records.size() - 1` do in `TagWriter::createNDEFMessage`. -/
def applyMessageFlags : List (List Nat) → List (List Nat)
  | [] => []
  | d :: rest => applyEndFlag (orHead 0x80 d :: rest)

/-- Embeds `TagWriter::createNDEFMessage`, kept as the list of per-record
encoded chunks; the emitted byte stream is their concatenation. -/
def createNDEFMessage (records : List NDEFRecord) : Option (List (List Nat)) :=
  (encodeRecords records).map applyMessageFlags

/-- Byte stream produced by `TagWriter::createNDEFMessage` (the chunks are
appended into the single output vector `data`). -/
def createNDEFMessageBytes (records : List NDEFRecord) : Option (List Nat) :=
  (createNDEFMessage records).map List.flatten

/-- Result of one `TagReader::parseNDEFRecord` call.  `oob` marks an
execution in which the C++ code indexes the input vector (or the `rawData`
vector) outside its bounds — undefined behaviour in the source. -/
inductive ParseOutcome
  | ok (record : NDEFRecord) (bytesRead : Nat)
  | error
  | oob
  deriving DecidableEq, Repr

/-- Embeds `TagReader::parseNDEFRecord`.  Every memory access of the C++
code is modelled with `List.get?` / an explicit range check; an
out-of-bounds access yields `ParseOutcome.oob`.  The three header bytes are
read unconditionally after the single `offset >= data.size()` guard. -/
def parseNDEFRecord (data : List Nat) (offset : Nat) : ParseOutcome :=
  if offset ≥ data.length then ParseOutcome.error
  else
    match data.get? offset with
    | none => ParseOutcome.oob
    | some flags =>
      let tnf := flags &&& 0x07
      match data.get? (offset + 1) with
      | none => ParseOutcome.oob
      | some typeLength =>
        match data.get? (offset + 2) with
        | none => ParseOutcome.oob
        | some payloadLength =>
          -- IL flag: the ID-length byte is skipped (pos++) without a read.
          let hasIdLength := flags &&& 0x08 ≠ 0
          let posType := if hasIdLength then offset + 4 else offset + 3
          -- Reading the type string accesses bytes [posType, posType+typeLength).
          if typeLength > 0 ∧ posType + typeLength > data.length then ParseOutcome.oob
          else
            let type := (data.drop posType).take typeLength
            let posAfterType := posType + typeLength
            -- On IL, the skipped ID-length byte at posType - typeLength - 1 + typeLength
            -- (i.e. offset + 3) is now read back and that many ID bytes are skipped.
            match if hasIdLength then data.get? (offset + 3) else some 0 with
            | none => ParseOutcome.oob
            | some idLength =>
              let idSkip := if hasIdLength then idLength else 0
              let pos := posAfterType + idSkip
              -- rawData.assign reads bytes [pos, pos + payloadLength).
              if pos + payloadLength > data.length then ParseOutcome.oob
              else
                let rawData := (data.drop pos).take payloadLength
                let bytesRead :=
                  3 + (if hasIdLength then 1 + idLength else 0) + typeLength + payloadLength
                let base : NDEFRecord := { rawData := rawData }
                if tnf = 0x01 then
                  if type = bytesT then
                    if payloadLength > 3 then
                      let langLength := (rawData.headD 0) &&& 0x3F
                      -- language reads rawData[1 .. 1+langLength); payload reads
                      -- rawData[1+langLength ..) with count payloadLength-1-langLength
                      -- (negative counts in the C++ become huge size_t values).
                      if 1 + langLength > payloadLength then ParseOutcome.oob
                      else
                        ParseOutcome.ok
                          { base with
                            type := NDEFRecordType.TEXT,
                            language := (rawData.drop 1).take langLength,
                            payload := (rawData.drop (1 + langLength)).take
                              (payloadLength - 1 - langLength) }
                          bytesRead
                    else ParseOutcome.ok { base with type := NDEFRecordType.TEXT } bytesRead
                  else if type = bytesU then
                    if payloadLength > 1 then
                      let code := rawData.headD 0
                      let tail := (rawData.drop 1).take (payloadLength - 1)
                      let payload :=
                        if code < uriPrefixTable.length then
                          uriPrefixTable.getD code [] ++ tail
                        else tail
                      ParseOutcome.ok
                        { base with type := NDEFRecordType.URI, payload := payload }
                        bytesRead
                    else ParseOutcome.ok { base with type := NDEFRecordType.URI } bytesRead
                  else
                    -- Well-known type other than "T"/"U": the C++ leaves the
                    -- record type indeterminate; modelled as the default UNKNOWN.
                    ParseOutcome.ok base bytesRead
                else if tnf = 0x02 then
                  ParseOutcome.ok
                    { base with
                      type := NDEFRecordType.MIME,
                      mimeType := type,
                      payload := rawData.take payloadLength }
                    bytesRead
                else
                  ParseOutcome.ok { base with type := NDEFRecordType.UNKNOWN } bytesRead

/-- Loop of `TagReader::parseNDEFMessage` with explicit fuel (the offset
strictly increases, so `data.length + 1` iterations always suffice).
Returns `none` when an iteration ran into out-of-bounds reads; mirrors the
C++ in returning the records collected so far when a record fails to parse,
and in stopping after a record whose flag byte has the ME bit 0x40. -/
def parseNDEFMessageGo (data : List Nat) : Nat → Nat → Option (List NDEFRecord)
  | 0, _ => some []
  | fuel + 1, offset =>
    if offset < data.length then
      match parseNDEFRecord data offset with
      | ParseOutcome.oob => none
      | ParseOutcome.error => some []
      | ParseOutcome.ok record bytesRead =>
        if (data.getD offset 0) &&& 0x40 ≠ 0 then some [record]
        else
          (parseNDEFMessageGo data fuel (offset + bytesRead)).map
            fun rest => record :: rest
    else some []

/-- Embeds `TagReader::parseNDEFMessage` (the record list of the resulting
`NDEFMessage`; `message.totalSize` is just `data.size()`). -/
def parseNDEFMessage (data : List Nat) : Option (List NDEFRecord) :=
  parseNDEFMessageGo data (data.length + 1) 0

/-- Composition "encode one message, then parse the bytes back", the
round-trip the codec claims are about. -/
def encodeDecode (records : List NDEFRecord) : Option (List NDEFRecord) :=
  (createNDEFMessageBytes records).bind parseNDEFMessage

-- ===========================================================================
-- Tag identification (`NFCManager::identifyTag`)
-- ===========================================================================

/-- Tag info struct `NFC::TagInfo` (the fields `identifyTag` touches). -/
structure TagInfo where
  protocol : NFCProtocol
  atqa : List Nat
  dataSize : Nat
  isReadOnly : Bool
  deriving DecidableEq, Repr

/-- Embeds `NFCManager::identifyTag`; `none` is `NFCStatus::ERROR`.  The
16-bit type indicator is `(response[1] << 8) | response[0]`. -/
def identifyTag (response : List Nat) : Option TagInfo :=
  if response.length < 2 then none
  else
    let atqa := ((response.getD 1 0) <<< 8) ||| response.getD 0 0
    if atqa = 0x0004 then
      some { protocol := NFCProtocol.MIFARE_CLASSIC, atqa := response,
             dataSize := 1024, isReadOnly := false }
    else if atqa = 0x0044 then
      some { protocol := NFCProtocol.NFC_A, atqa := response,
             dataSize := 8192, isReadOnly := false }
    else
      some { protocol := NFCProtocol.NFC_A, atqa := response,
             dataSize := 2048, isReadOnly := false }

-- ===========================================================================
-- Command scheduler (`nfcTaskManager.cpp`, `NFCTaskManager`)
-- ===========================================================================

/-- Command enum `NFCTask::NFCCommand` from `nfcTaskManager.h`. -/
inductive NFCCommand
  | INITIALIZE
  | DEINITIALIZE
  | START_DETECTION
  | STOP_DETECTION
  | READ_TAG
  | WRITE_TAG
  | READ_UID
  | READ_TEXT
  | READ_URI
  | READ_WIFI
  | WRITE_TEXT
  | WRITE_URI
  | WRITE_WIFI
  | WRITE_URL
  | WRITE_EMAIL
  | WRITE_PHONE
  | FORMAT_TAG
  | SET_FIELD
  | GET_STATUS
  deriving DecidableEq, Repr

/-- Command priority enum `NFCTask::NFCPriority` from `nfcTaskManager.h`. -/
inductive NFCPriority
  | LOW
  | NORMAL
  | HIGH
  | URGENT
  deriving DecidableEq, Repr

/-- Operation enum `NFC::TagOperation` from `nfcClass.h`. -/
inductive TagOperation
  | DETECT
  | READ
  | WRITE
  | FORMAT
  | AUTHENTICATE
  deriving DecidableEq, Repr

/-- Command struct `NFCTask::NFCCommandData` (the fields the dispatch loop
consults; `callback` is modelled by whether one is present). -/
structure NFCCommandData where
  command : NFCCommand
  priority : NFCPriority
  requestId : Nat
  textData : List Nat := []
  languageCode : List Nat := []
  uriData : List Nat := []
  wifiSSID : List Nat := []
  wifiPassword : List Nat := []
  wifiSecurity : List Nat := []
  fieldState : NFCField := NFCField.OFF
  protocolMask : Nat := 0
  hasCallback : Bool := false
  deriving DecidableEq, Repr

/-- Result struct `NFC::OperationResult` (the fields `processCommand`
assigns; `errorMessage` carries the human-readable message). -/
structure OperationResult where
  operation : TagOperation
  status : NFCStatus
  ndefRecords : List NDEFRecord := []
  errorMessage : String := ""
  deriving Repr

/-- Embeds `NFCTask::CreateErrorResult`. -/
def CreateErrorResult (operation : TagOperation) (status : NFCStatus)
    (message : String) : OperationResult :=
  { operation := operation, status := status, errorMessage := message }

/-- Oracle for the `NFC::NFCManager` calls the dispatch switch makes (the
manager and tag reader/writer live behind the scheduler; their outcomes are
parameters here).  `mutexAvailable` is the outcome of `xSemaphoreTake` on
the serialization mutex. -/
structure ManagerOracle where
  mutexAvailable : Bool
  hasReader : Bool
  hasWriter : Bool
  initializeStatus : NFCStatus
  deinitializeStatus : NFCStatus
  startDetectionStatus : NFCStatus
  stopDetectionStatus : NFCStatus
  readTextStatus : NFCStatus
  readTextValue : List Nat
  readLanguageValue : List Nat
  writeTextStatus : NFCStatus
  writeURLStatus : NFCStatus
  writeWiFiStatus : NFCStatus
  setFieldStatus : NFCStatus
  formatTagStatus : NFCStatus
  detectionActive : Bool

/-- Embeds `NFCTaskManager::processCommand`: takes the mutex, dispatches on
the command kind, builds an `OperationResult`.  Note the dispatch never
consults `command.priority`. -/
def processCommand (mgr : ManagerOracle) (command : NFCCommandData) : OperationResult :=
  if !mgr.mutexAvailable then
    CreateErrorResult TagOperation.READ NFCStatus.TIMEOUT ("Failed to acquire NFC mutex")
  else
    match command.command with
    | NFCCommand.INITIALIZE =>
      { operation := TagOperation.DETECT, status := mgr.initializeStatus }
    | NFCCommand.DEINITIALIZE =>
      { operation := TagOperation.DETECT, status := mgr.deinitializeStatus }
    | NFCCommand.START_DETECTION =>
      { operation := TagOperation.DETECT, status := mgr.startDetectionStatus }
    | NFCCommand.STOP_DETECTION =>
      { operation := TagOperation.DETECT, status := mgr.stopDetectionStatus }
    | NFCCommand.READ_TEXT =>
      if mgr.hasReader then
        if mgr.readTextStatus = NFCStatus.OK then
          { operation := TagOperation.READ, status := mgr.readTextStatus,
            ndefRecords := [{ type := NDEFRecordType.TEXT,
                              payload := mgr.readTextValue,
                              language := mgr.readLanguageValue }] }
        else { operation := TagOperation.READ, status := mgr.readTextStatus }
      else { operation := TagOperation.READ, status := NFCStatus.NOT_INITIALIZED }
    | NFCCommand.WRITE_TEXT =>
      if mgr.hasWriter then
        { operation := TagOperation.WRITE, status := mgr.writeTextStatus }
      else { operation := TagOperation.WRITE, status := NFCStatus.NOT_INITIALIZED }
    | NFCCommand.WRITE_URL =>
      if mgr.hasWriter then
        { operation := TagOperation.WRITE, status := mgr.writeURLStatus }
      else { operation := TagOperation.WRITE, status := NFCStatus.NOT_INITIALIZED }
    | NFCCommand.WRITE_WIFI =>
      if mgr.hasWriter then
        { operation := TagOperation.WRITE, status := mgr.writeWiFiStatus }
      else { operation := TagOperation.WRITE, status := NFCStatus.NOT_INITIALIZED }
    | NFCCommand.SET_FIELD =>
      { operation := TagOperation.DETECT, status := mgr.setFieldStatus }
    | NFCCommand.FORMAT_TAG =>
      if mgr.hasWriter then
        { operation := TagOperation.FORMAT, status := mgr.formatTagStatus }
      else { operation := TagOperation.FORMAT, status := NFCStatus.NOT_INITIALIZED }
    | NFCCommand.GET_STATUS =>
      { operation := TagOperation.DETECT,
        status := if mgr.detectionActive then NFCStatus.OK else NFCStatus.ERROR }
    | _ =>
      CreateErrorResult TagOperation.READ NFCStatus.INVALID_PARAM ("Unknown command")

/-- Embeds `NFCTaskManager::SendCommand` over the FreeRTOS queue semantics:
`xQueueSend` appends to the back of the bounded queue and fails with
`TIMEOUT` when the queue stays full for the wait budget. -/
def SendCommand (initialized : Bool) (queue : List NFCCommandData)
    (capacity : Nat) (command : NFCCommandData) : NFCStatus × List NFCCommandData :=
  if !initialized then (NFCStatus.NOT_INITIALIZED, queue)
  else if queue.length < capacity then (NFCStatus.OK, queue ++ [command])
  else (NFCStatus.TIMEOUT, queue)

/-- One delivered result of `NFCTaskManager::sendResult`, tagged with the
request id of the command it answers: invoked callback, or best-effort push
onto the response queue when the command has no callback. -/
inductive Delivery
  | viaCallback (requestId : Nat) (result : OperationResult)
  | viaResponseQueue (requestId : Nat) (result : OperationResult)

/-- Request id of a delivery. -/
def Delivery.requestId : Delivery → Nat
  | Delivery.viaCallback id _ => id
  | Delivery.viaResponseQueue id _ => id

/-- Embeds `NFCTaskManager::sendResult` for one command. -/
def sendResult (command : NFCCommandData) (result : OperationResult) : Delivery :=
  if command.hasCallback then Delivery.viaCallback command.requestId result
  else Delivery.viaResponseQueue command.requestId result

/-- Embeds the command-draining behaviour of `NFCTaskManager::taskMainLoop`:
`xQueueReceive` pops queued commands from the front, one at a time; each is
processed with `processCommand` and its result delivered with `sendResult`.
Returns the deliveries in the order they happen. -/
def taskMainLoopRun (mgr : ManagerOracle) : List NFCCommandData → List Delivery
  | [] => []
  | command :: rest =>
    sendResult command (processCommand mgr command) :: taskMainLoopRun mgr rest

-- ===========================================================================
-- Further definitions: header-flag tests and concrete fixtures
-- ===========================================================================

/-- Message-begin test on the header (first) byte of an encoded record. -/
def hasMB (d : List Nat) : Bool := d.headD 0 &&& 0x80 != 0

/-- Message-end test on the header (first) byte of an encoded record. -/
def hasME (d : List Nat) : Bool := d.headD 0 &&& 0x40 != 0

/-- An always-succeeding SPI device that answers every read with 0x00. -/
def echoSpi : SPIMaster Unit :=
  { isInitialized := true,
    transmit := fun s _ => (SPIStatus.OK, s),
    transmitReceive := fun s _ => (SPIStatus.OK, [0x00, 0x00], s) }

/-- A freshly constructed controller (initialized flag clear) on a working
SPI master. -/
def freshCtrl : Ctrl Unit :=
  { spi := echoSpi, dev := (), initialized := false,
    currentProtocol := NFCProtocol.NFC_A, fieldState := NFCField.OFF,
    interruptPending := false, defaultProtocol := NFCProtocol.NFC_A }

/-- A controller whose initialized flag is set (for claims about the
initialized state). -/
def readyCtrl : Ctrl Unit := { freshCtrl with initialized := true }

/-- An always-succeeding SPI device whose register reads all answer 0x02, a
value whose IC-type field does not match the expected chip identity. -/
def mismatchSpi : SPIMaster Unit :=
  { isInitialized := true,
    transmit := fun s _ => (SPIStatus.OK, s),
    transmitReceive := fun s _ => (SPIStatus.OK, [0x00, 0x02], s) }

/-- A freshly constructed controller on the identity-mismatch device. -/
def mismatchCtrl : Ctrl Unit :=
  { spi := mismatchSpi, dev := (), initialized := false,
    currentProtocol := NFCProtocol.NFC_A, fieldState := NFCField.OFF,
    interruptPending := false, defaultProtocol := NFCProtocol.NFC_A }

/-- Manager oracle for the C9 witness: everything present and succeeding. -/
def testMgr : ManagerOracle :=
  { mutexAvailable := true, hasReader := true, hasWriter := true,
    initializeStatus := NFCStatus.OK, deinitializeStatus := NFCStatus.OK,
    startDetectionStatus := NFCStatus.OK, stopDetectionStatus := NFCStatus.OK,
    readTextStatus := NFCStatus.OK, readTextValue := [], readLanguageValue := [],
    writeTextStatus := NFCStatus.OK, writeURLStatus := NFCStatus.OK,
    writeWiFiStatus := NFCStatus.OK, setFieldStatus := NFCStatus.OK,
    formatTagStatus := NFCStatus.OK, detectionActive := false }

/-- Command with request id 1 and LOW priority. -/
def cmdA : NFCCommandData :=
  { command := NFCCommand.WRITE_TEXT, priority := NFCPriority.LOW,
    requestId := 1, hasCallback := true }

/-- Command with request id 2 and URGENT priority. -/
def cmdB : NFCCommandData :=
  { command := NFCCommand.READ_TEXT, priority := NFCPriority.URGENT,
    requestId := 2, hasCallback := true }

/-- Command with request id 3 and HIGH priority. -/
def cmdC : NFCCommandData :=
  { command := NFCCommand.SET_FIELD, priority := NFCPriority.HIGH,
    requestId := 3, hasCallback := false }

/-- Text record used by the C5 witness. -/
def recTextW : NDEFRecord := { type := NDEFRecordType.TEXT, payload := [0x61] }

/-- URI record used by the C5 witness. -/
def recUriW : NDEFRecord := { type := NDEFRecordType.URI, payload := [0x62] }

-- ===========================================================================
-- Helper lemmas
-- ===========================================================================

/-- Delivered results carry the request id of the command they answer. -/
theorem sendResult_requestId (command : NFCCommandData) (result : OperationResult) :
    (sendResult command result).requestId = command.requestId := by
  unfold sendResult
  split <;> rfl

/-- The dispatch loop delivers results exactly in queue order. -/
theorem taskMainLoopRun_order (mgr : ManagerOracle) (queue : List NFCCommandData) :
    (taskMainLoopRun mgr queue).map Delivery.requestId =
      queue.map NFCCommandData.requestId := by
  induction queue with
  | nil => rfl
  | cons c rest ih => simp [taskMainLoopRun, sendResult_requestId, ih]

/-- Every bus transaction of `ReadRegister` starts with the read-framed
address byte. -/
theorem readRegister_trace_head {σ : Type} (c : Ctrl σ) (reg : Nat) :
    ∀ tx ∈ (ReadRegister c reg).2.2.2, tx.head? = some ((reg ||| SPI_CMD_READ) % 256) := by
  intro tx htx
  unfold ReadRegister at htx
  by_cases hg : (!c.initialized || !isValidRegister reg) = true
  · simp [hg] at htx
  · simp only [Bool.not_eq_true] at hg
    simp only [hg, if_false, Bool.false_eq_true] at htx
    split at htx <;> simp_all

/-- The three register reads of `GetInterruptStatus` are framed with the
interrupt-register addresses 0x36, 0x37, 0x38. -/
theorem getInterruptStatus_trace_heads {σ : Type} (c : Ctrl σ) :
    ∀ tx ∈ (GetInterruptStatus c).2.2.2.2.2,
      tx.head? = some 0x76 ∨ tx.head? = some 0x77 ∨ tx.head? = some 0x78 := by
  intro tx htx
  have e1 : ((REG_IRQ_MAIN ||| SPI_CMD_READ) % 256 : Nat) = 0x76 := by decide
  have e2 : ((REG_IRQ_TIMER_NFC ||| SPI_CMD_READ) % 256 : Nat) = 0x77 := by decide
  have e3 : ((REG_IRQ_ERROR_WUP ||| SPI_CMD_READ) % 256 : Nat) = 0x78 := by decide
  unfold GetInterruptStatus at htx
  have H1 := readRegister_trace_head c REG_IRQ_MAIN
  rcases hr1 : ReadRegister c REG_IRQ_MAIN with ⟨st1, v1, c1, tr1⟩
  rw [hr1] at htx H1
  simp only [] at htx H1
  split at htx
  · exact Or.inl ((H1 tx htx).trans (by rw [e1]))
  · have H2 := readRegister_trace_head c1 REG_IRQ_TIMER_NFC
    rcases hr2 : ReadRegister c1 REG_IRQ_TIMER_NFC with ⟨st2, v2, c2, tr2⟩
    rw [hr2] at htx H2
    simp only [] at htx H2
    split at htx
    · rcases List.mem_append.mp htx with h | h
      · exact Or.inl ((H1 tx h).trans (by rw [e1]))
      · exact Or.inr (Or.inl ((H2 tx h).trans (by rw [e2])))
    · have H3 := readRegister_trace_head c2 REG_IRQ_ERROR_WUP
      rcases hr3 : ReadRegister c2 REG_IRQ_ERROR_WUP with ⟨st3, v3, c3, tr3⟩
      rw [hr3] at htx H3
      simp only [] at htx H3
      rcases List.mem_append.mp htx with h | h
      · rcases List.mem_append.mp h with h' | h'
        · exact Or.inl ((H1 tx h').trans (by rw [e1]))
        · exact Or.inr (Or.inl ((H2 tx h').trans (by rw [e2])))
      · exact Or.inr (Or.inr ((H3 tx h).trans (by rw [e3])))

/-- Every successfully encoded record chunk starts with its TNF byte,
which is 1 (well-known) or 2 (MIME). -/
theorem createNDEFRecord_head (r : NDEFRecord) (d : List Nat)
    (h : createNDEFRecord r = some d) : d.headD 0 = 1 ∨ d.headD 0 = 2 := by
  unfold createNDEFRecord at h
  cases hr : r.type <;> rw [hr] at h <;>
    first
      | exact Option.noConfusion h
      | (simp only [Option.some.injEq] at h; subst h; simp [buildRecordBytes])

/-- Heads and length of the chunk lists produced by `encodeRecords`. -/
theorem encodeRecords_heads (records : List NDEFRecord) (ds : List (List Nat))
    (h : encodeRecords records = some ds) :
    (∀ d ∈ ds, d.headD 0 = 1 ∨ d.headD 0 = 2) ∧ ds.length = records.length := by
  induction records generalizing ds with
  | nil =>
    unfold encodeRecords at h
    simp only [Option.some.injEq] at h
    subst h
    simp
  | cons r rs ih =>
    unfold encodeRecords at h
    cases hr : createNDEFRecord r with
    | none => rw [hr] at h; cases h
    | some d0 =>
      rw [hr] at h
      cases hrs : encodeRecords rs with
      | none => rw [hrs] at h; cases h
      | some rest =>
        rw [hrs] at h
        simp only [Option.some_bind, Option.map_some', Option.some.injEq] at h
        subst h
        obtain ⟨ihh, ihl⟩ := ih rest hrs
        refine ⟨?_, by simp [ihl]⟩
        intro d hd
        rcases List.mem_cons.mp hd with rfl | hd
        · exact createNDEFRecord_head r d hr
        · exact ihh d hd

/-- A chunk whose head byte is one of 1, 2, 0x81, 0x82 does not have the
message-end bit set. -/
theorem hasME_false_of_head (d : List Nat)
    (hd : d.headD 0 = 1 ∨ d.headD 0 = 2 ∨ d.headD 0 = 0x81 ∨ d.headD 0 = 0x82) :
    hasME d = false := by
  unfold hasME
  rcases hd with h | h | h | h <;> rw [h] <;> decide

/-- A chunk whose head byte is 1 or 2 does not have the message-begin bit. -/
theorem hasMB_false_of_head (d : List Nat)
    (hd : d.headD 0 = 1 ∨ d.headD 0 = 2) : hasMB d = false := by
  unfold hasMB
  rcases hd with h | h <;> rw [h] <;> decide

/-- Unfolding equation: the message-begin test after ORing a flag into a
nonempty chunk only looks at the ORed head byte. -/
theorem hasMB_orHead (flag b : Nat) (tl : List Nat) :
    hasMB (orHead flag (b :: tl)) = ((b ||| flag) &&& 0x80 != 0) := rfl

/-- Behaviour of `applyEndFlag` on chunks with clean high header bits: it
sets the message-end bit exactly on the last chunk and does not affect the
message-begin bits. -/
theorem applyEndFlag_spec (cs : List (List Nat))
    (hcs : ∀ d ∈ cs, d.headD 0 = 1 ∨ d.headD 0 = 2 ∨ d.headD 0 = 0x81 ∨ d.headD 0 = 0x82)
    (hne : cs ≠ []) :
    (applyEndFlag cs).map hasME = List.replicate (cs.length - 1) false ++ [true] ∧
    (applyEndFlag cs).map hasMB = cs.map hasMB := by
  induction cs with
  | nil => exact absurd rfl hne
  | cons d rest ih =>
    cases rest with
    | nil =>
      have hd := hcs d (by simp)
      cases d with
      | nil => simp at hd
      | cons b tl =>
        simp only [List.headD_cons] at hd
        rcases hd with h | h | h | h <;> subst h
        all_goals simp [applyEndFlag, orHead, hasME, hasMB]
        all_goals decide
    | cons d2 rest2 =>
      have hd := hcs d (by simp)
      obtain ⟨ihME, ihMB⟩ := ih (fun x hx => hcs x (by simp [List.mem_cons.mp hx])) (by simp)
      constructor
      · show hasME d :: (applyEndFlag (d2 :: rest2)).map hasME = _
        rw [ihME, hasME_false_of_head d hd]
        simp [List.replicate_succ]
      · show hasMB d :: (applyEndFlag (d2 :: rest2)).map hasMB = _
        rw [ihMB]
        rfl

/-- Behaviour of `applyMessageFlags` on the chunks produced by the record
encoder: message-begin exactly on the first chunk, message-end exactly on
the last. -/
theorem applyMessageFlags_spec (ds : List (List Nat))
    (hds : ∀ d ∈ ds, d.headD 0 = 1 ∨ d.headD 0 = 2) (hne : ds ≠ []) :
    (applyMessageFlags ds).map hasMB = true :: List.replicate (ds.length - 1) false ∧
    (applyMessageFlags ds).map hasME = List.replicate (ds.length - 1) false ++ [true] := by
  cases ds with
  | nil => exact absurd rfl hne
  | cons d rest =>
    have hd := hds d (by simp)
    cases d with
    | nil => simp at hd
    | cons b tl =>
      simp only [List.headD_cons] at hd
      have hcs : ∀ x ∈ (orHead 0x80 (b :: tl) :: rest),
          x.headD 0 = 1 ∨ x.headD 0 = 2 ∨ x.headD 0 = 0x81 ∨ x.headD 0 = 0x82 := by
        intro x hx
        rcases List.mem_cons.mp hx with rfl | hx
        · rcases hd with h | h <;> subst h <;> simp [orHead]
        · rcases hds x (by simp [hx]) with h | h
          · exact Or.inl h
          · exact Or.inr (Or.inl h)
      obtain ⟨eME, eMB⟩ := applyEndFlag_spec (orHead 0x80 (b :: tl) :: rest) hcs (by simp)
      have hrestMB : rest.map hasMB = List.replicate rest.length false := by
        rw [List.eq_replicate_iff]
        refine ⟨by simp, ?_⟩
        intro x hx
        simp only [List.mem_map] at hx
        obtain ⟨y, hy, rfl⟩ := hx
        exact hasMB_false_of_head y (hds y (by simp [hy]))
      constructor
      · show (applyEndFlag (orHead 0x80 (b :: tl) :: rest)).map hasMB = _
        rw [eMB]
        show hasMB (orHead 0x80 (b :: tl)) :: rest.map hasMB = _
        rw [hrestMB, hasMB_orHead]
        rcases hd with h | h <;> subst h <;> simp
      · show (applyEndFlag (orHead 0x80 (b :: tl) :: rest)).map hasME = _
        rw [eME]
        show _ = List.replicate (((b :: tl) :: rest).length - 1) false ++ [true]
        simp [orHead]

-- ===========================================================================
-- C7: tag-family classification
-- ===========================================================================

/-- C7: for every detection response of at least two bytes, the 16-bit type
indicator `(response[1] << 8) | response[0]` classifies the tag: 0x0004 as
MIFARE-Classic with 1024-byte size, 0x0044 as ISO14443-A with 8192-byte
size, and everything else as ISO14443-A with 2048-byte size. -/
theorem identifyTag_classification (response : List Nat)
    (h : 2 ≤ response.length) :
    identifyTag response =
      (if ((response.getD 1 0) <<< 8) ||| response.getD 0 0 = 0x0004 then
        some { protocol := NFCProtocol.MIFARE_CLASSIC, atqa := response,
               dataSize := 1024, isReadOnly := false }
      else if ((response.getD 1 0) <<< 8) ||| response.getD 0 0 = 0x0044 then
        some { protocol := NFCProtocol.NFC_A, atqa := response,
               dataSize := 8192, isReadOnly := false }
      else
        some { protocol := NFCProtocol.NFC_A, atqa := response,
               dataSize := 2048, isReadOnly := false }) := by
  unfold identifyTag
  rw [if_neg (by omega)]

/-- Witness for C7 at the concrete MIFARE-Classic response [0x04, 0x00]. -/
theorem identifyTag_classification_witness :
    identifyTag [0x04, 0x00] =
      some { protocol := NFCProtocol.MIFARE_CLASSIC, atqa := [0x04, 0x00],
             dataSize := 1024, isReadOnly := false } := by
  have h := identifyTag_classification [0x04, 0x00] (by decide)
  simpa using h

-- ===========================================================================
-- C10: parseNDEFRecord reads past the end of truncated buffers
-- ===========================================================================

/-- C10 (code bug): on the truncated buffers [0x01] and [0x01, 0x01] at
offset 0, `parseNDEFRecord` does not return an error: after the single
`offset >= data.size()` guard the C++ unconditionally reads the three
header bytes `data[offset] .. data[offset+2]`, indexing past the end of
the vector (undefined behaviour), modelled by `ParseOutcome.oob`. -/
theorem parseNDEFRecord_truncated_oob :
    parseNDEFRecord [0x01] 0 = ParseOutcome.oob ∧
    parseNDEFRecord [0x01, 0x01] 0 = ParseOutcome.oob ∧
    parseNDEFMessage [0x01] = none := by decide

-- ===========================================================================
-- C1: every bus operation rejects while the initialized flag is clear,
--     so Initialize itself can never get past its internal Reset
-- ===========================================================================

/-- C1: while the controller's initialized flag is clear, every register
read/write, FIFO, and direct-command operation returns INVALID_PARAM with
an empty bus-transaction trace; consequently on a freshly constructed
controller with a working SPI master, `Initialize` returns INVALID_PARAM
(its internal `Reset` calls `ExecuteCommand` while the flag is still
clear) and performs no bus transaction at all. -/
theorem uninitialized_ops_reject {σ : Type} (c : Ctrl σ)
    (h : c.initialized = false) (hspi : c.spi.isInitialized = true) :
    (∀ reg, ReadRegister c reg = (NFCStatus.INVALID_PARAM, none, c, [])) ∧
    (∀ reg v, WriteRegister c reg v = (NFCStatus.INVALID_PARAM, c, [])) ∧
    (∀ reg len, ReadRegisters c reg len = (NFCStatus.INVALID_PARAM, [], c, [])) ∧
    (∀ reg data, WriteRegisters c reg data = (NFCStatus.INVALID_PARAM, c, [])) ∧
    (∀ cmd, ExecuteCommand c cmd = (NFCStatus.INVALID_PARAM, c, [])) ∧
    (∀ reg mask v, ModifyRegister c reg mask v = (NFCStatus.INVALID_PARAM, c, [])) ∧
    (∀ len, ReadFifo c len = (NFCStatus.INVALID_PARAM, [], c, [])) ∧
    (∀ data, WriteFifo c data = (NFCStatus.INVALID_PARAM, c, [])) ∧
    GetFifoStatus c = (NFCStatus.INVALID_PARAM, none, c, []) ∧
    ClearFifo c = (NFCStatus.INVALID_PARAM, c, []) ∧
    Initialize c = (NFCStatus.INVALID_PARAM, c, []) := by
  refine ⟨?_, ?_, ?_, ?_, ?_, ?_, ?_, ?_, ?_, ?_, ?_⟩
  · intro reg; simp [ReadRegister, h]
  · intro reg v; simp [WriteRegister, h]
  · intro reg len; simp [ReadRegisters, h]
  · intro reg data; simp [WriteRegisters, h]
  · intro cmd; simp [ExecuteCommand, h]
  · intro reg mask v; simp [ModifyRegister, ReadRegister, h]
  · intro len; simp [ReadFifo, h]
  · intro data; simp [WriteFifo, h]
  · simp [GetFifoStatus, ReadRegister, h]
  · simp [ClearFifo, ExecuteCommand, h]
  · simp [Initialize, Reset, ClearFifo, ExecuteCommand, h, hspi]

/-- Witness for C1: the fresh controller on the working echo SPI device. -/
theorem uninitialized_ops_reject_witness :
    Initialize freshCtrl = (NFCStatus.INVALID_PARAM, freshCtrl, []) ∧
    ReadRegister freshCtrl REG_MODE = (NFCStatus.INVALID_PARAM, none, freshCtrl, []) :=
  ⟨(uninitialized_ops_reject freshCtrl rfl rfl).2.2.2.2.2.2.2.2.2.2,
   (uninitialized_ops_reject freshCtrl rfl rfl).1 REG_MODE⟩

-- ===========================================================================
-- C2: the documented Initialize sequence is unreachable (code bug)
-- ===========================================================================

/-- C2 (code bug): a fresh controller on a working SPI device whose identity
register would read back 0x02 — a value failing the IC-type check, for
which the spec requires `Initialize` to return ERROR after the reset
sequence.  Instead `Initialize` returns INVALID_PARAM without a single bus
transaction: its internal `Reset` issues the set-default command through
`ExecuteCommand`, which rejects because the initialized flag is still
clear, so the reset/identity/configuration sequence never starts. -/
theorem initialize_rejects_before_identity_check :
    Initialize mismatchCtrl = (NFCStatus.INVALID_PARAM, mismatchCtrl, []) ∧
    (0x02 &&& IC_TYPE_MASK) ≠ IC_IDENTITY_VALUE := by
  constructor
  · simp [Initialize, Reset, ClearFifo, ExecuteCommand, mismatchCtrl, mismatchSpi]
  · decide

-- ===========================================================================
-- C6: out-of-range addresses and commands are rejected without bus traffic
-- ===========================================================================

/-- C6: for every register address above 0x3F, `ReadRegister`,
`WriteRegister` and their multi-register variants return INVALID_PARAM
with an empty bus-transaction trace, and for every command byte below
0xC0, `ExecuteCommand` does the same — on any controller state. -/
theorem out_of_range_rejected {σ : Type} (c : Ctrl σ) (reg cmd : Nat)
    (hreg : 0x3F < reg) (hcmd : cmd < 0xC0) :
    ReadRegister c reg = (NFCStatus.INVALID_PARAM, none, c, []) ∧
    (∀ v, WriteRegister c reg v = (NFCStatus.INVALID_PARAM, c, [])) ∧
    (∀ len, ReadRegisters c reg len = (NFCStatus.INVALID_PARAM, [], c, [])) ∧
    (∀ data, WriteRegisters c reg data = (NFCStatus.INVALID_PARAM, c, [])) ∧
    ExecuteCommand c cmd = (NFCStatus.INVALID_PARAM, c, []) := by
  have h1 : isValidRegister reg = false := by
    simp only [isValidRegister, REG_FIFO_DATA, decide_eq_false_iff_not]
    omega
  have h2 : isValidCommand cmd = false := by
    simp only [isValidCommand, decide_eq_false_iff_not]
    omega
  refine ⟨?_, ?_, ?_, ?_, ?_⟩
  · simp [ReadRegister, h1]
  · intro v; simp [WriteRegister, h1]
  · intro len; simp [ReadRegisters, h1]
  · intro data; simp [WriteRegisters, h1]
  · simp [ExecuteCommand, h2]

/-- Witness for C6 at address 0x40 and command 0x00 on an initialized
controller. -/
theorem out_of_range_rejected_witness :
    ReadRegister readyCtrl 0x40 = (NFCStatus.INVALID_PARAM, none, readyCtrl, []) ∧
    ExecuteCommand readyCtrl 0x00 = (NFCStatus.INVALID_PARAM, readyCtrl, []) :=
  ⟨(out_of_range_rejected readyCtrl 0x40 0x00 (by decide) (by decide)).1,
   (out_of_range_rejected readyCtrl 0x40 0x00 (by decide) (by decide)).2.2.2.2⟩

-- ===========================================================================
-- C5: exactly one message-begin and one message-end flag per message
-- ===========================================================================

/-- C5: for every nonempty sequence of encodable records, among the encoded
record chunks of `createNDEFMessage` (whose concatenation is the emitted
byte stream) exactly one header byte carries the message-begin bit 0x80 —
the first — and exactly one carries the message-end bit 0x40 — the last:
the begin-bit map is `true` then `false`s, the end-bit map is `false`s
then `true`. -/
theorem message_flags_once (records : List NDEFRecord) (chunks : List (List Nat))
    (hne : records ≠ []) (henc : createNDEFMessage records = some chunks) :
    chunks.map hasMB = true :: List.replicate (chunks.length - 1) false ∧
    chunks.map hasME = List.replicate (chunks.length - 1) false ++ [true] := by
  unfold createNDEFMessage at henc
  cases hds : encodeRecords records with
  | none => rw [hds] at henc; cases henc
  | some ds =>
    rw [hds] at henc
    simp only [Option.map_some', Option.some.injEq] at henc
    obtain ⟨hheads, hlen⟩ := encodeRecords_heads records ds hds
    have hdne : ds ≠ [] := by
      intro hnil
      subst hnil
      simp only [List.length_nil] at hlen
      exact hne (List.eq_nil_of_length_eq_zero hlen.symm)
    obtain ⟨hMB, hME⟩ := applyMessageFlags_spec ds hheads hdne
    subst henc
    have hlen2 : (applyMessageFlags ds).length = ds.length := by
      have h2 := congrArg List.length hME
      simp only [List.length_map, List.length_append, List.length_replicate,
        List.length_cons, List.length_nil] at h2
      have h3 : 0 < ds.length := List.length_pos.mpr hdne
      omega
    rw [hlen2]
    exact ⟨hMB, hME⟩

/-- Witness for C5 on the two-record message [Text, URI]. -/
theorem message_flags_once_witness :
    ([[0x81, 0x01, 0x02, 0x54, 0x00, 0x61],
      [0x41, 0x01, 0x02, 0x55, 0x00, 0x62]] : List (List Nat)).map hasMB =
        true :: List.replicate 1 false ∧
    ([[0x81, 0x01, 0x02, 0x54, 0x00, 0x61],
      [0x41, 0x01, 0x02, 0x55, 0x00, 0x62]] : List (List Nat)).map hasME =
        List.replicate 1 false ++ [true] :=
  message_flags_once [recTextW, recUriW] _ (by simp) (by decide)

-- ===========================================================================
-- C8: Receive without a receive-complete interrupt times out, FIFO unread
-- ===========================================================================

/-- C8: a `Receive` call on an initialized controller in which either the
interrupt-pending flag is never set before the deadline, or the interrupt
status is read back without the collision bit or the receive-complete bit,
returns TIMEOUT; the caller's buffer is returned unmodified and no bus
transaction of the call is a read of the FIFO data register (whose read
framing byte is `REG_FIFO_DATA ||| SPI_CMD_READ = 0x7F`). -/
theorem receive_timeout_no_fifo_read {σ : Type} (c : Ctrl σ)
    (buf : List Nat) (intObserved : Bool)
    (hinit : c.initialized = true)
    (hno : intObserved = false ∨
      (∃ m t e c' tr,
        GetInterruptStatus { c with interruptPending := false } =
          (NFCStatus.OK, m, t, e, c', tr) ∧
        (m.getD 0) &&& IRQ_MAIN_COL = 0 ∧ (m.getD 0) &&& IRQ_MAIN_RXE = 0)) :
    (Receive c buf intObserved).1 = NFCStatus.TIMEOUT ∧
    (Receive c buf intObserved).2.1 = buf ∧
    ∀ tx ∈ (Receive c buf intObserved).2.2.2,
      tx.head? ≠ some ((REG_FIFO_DATA ||| SPI_CMD_READ) % 256) := by
  have e7F : ((REG_FIFO_DATA ||| SPI_CMD_READ) % 256 : Nat) = 0x7F := by decide
  cases intObserved with
  | false =>
    unfold Receive
    simp [hinit]
  | true =>
    rcases hno with hno | ⟨m, t, e, c', tr, hg, hcol, hrxe⟩
    · exact absurd hno (by simp)
    · have Hh := getInterruptStatus_trace_heads { c with interruptPending := false }
      rw [hg] at Hh
      simp only [] at Hh
      unfold Receive
      rw [hinit] at hg ⊢
      simp only [Bool.not_true, Bool.false_eq_true, if_false]
      rw [hg]
      simp only []
      rw [if_neg (by simp), if_neg (by simpa using hcol), if_neg (by simpa using hrxe)]
      refine ⟨rfl, rfl, ?_⟩
      intro tx htx
      rw [e7F]
      rcases Hh tx htx with h | h | h <;> rw [h] <;> decide

/-- Witness for C8: initialized controller, no interrupt observed. -/
theorem receive_timeout_no_fifo_read_witness :
    (Receive readyCtrl [1, 2, 3] false).1 = NFCStatus.TIMEOUT ∧
    (Receive readyCtrl [1, 2, 3] false).2.1 = [1, 2, 3] :=
  ⟨(receive_timeout_no_fifo_read readyCtrl [1, 2, 3] false rfl (Or.inl rfl)).1,
   (receive_timeout_no_fifo_read readyCtrl [1, 2, 3] false rfl (Or.inl rfl)).2.1⟩

-- ===========================================================================
-- C9: the scheduler services commands strictly in enqueue order
-- ===========================================================================

/-- C9: the dispatch loop delivers results strictly in enqueue (FIFO) order
for every queue; `processCommand` never consults the priority field; and in
particular commands with ids 1, 2, 3 enqueued in that order through
`SendCommand` (with arbitrary priorities, queue capacity at least 3) are
delivered in id order 1, 2, 3. -/
theorem scheduler_strict_fifo (mgr : ManagerOracle) (queue : List NFCCommandData)
    (c1 c2 c3 : NFCCommandData) (capacity : Nat)
    (h1 : c1.requestId = 1) (h2 : c2.requestId = 2) (h3 : c3.requestId = 3)
    (hcap : 3 ≤ capacity) :
    ((taskMainLoopRun mgr queue).map Delivery.requestId =
      queue.map NFCCommandData.requestId) ∧
    (∀ (c : NFCCommandData) (p : NFCPriority),
      processCommand mgr { c with priority := p } = processCommand mgr c) ∧
    ((SendCommand true [] capacity c1).1 = NFCStatus.OK ∧
     (SendCommand true (SendCommand true [] capacity c1).2 capacity c2).1 = NFCStatus.OK ∧
     (SendCommand true (SendCommand true (SendCommand true [] capacity c1).2
        capacity c2).2 capacity c3).1 = NFCStatus.OK ∧
     (taskMainLoopRun mgr
        (SendCommand true (SendCommand true (SendCommand true [] capacity c1).2
          capacity c2).2 capacity c3).2).map Delivery.requestId = [1, 2, 3]) := by
  have e1 : SendCommand true [] capacity c1 = (NFCStatus.OK, [c1]) := by
    simp only [SendCommand, Bool.not_true, Bool.false_eq_true, if_false]
    rw [if_pos (by simp; omega)]
    rfl
  have e2 : SendCommand true [c1] capacity c2 = (NFCStatus.OK, [c1, c2]) := by
    simp only [SendCommand, Bool.not_true, Bool.false_eq_true, if_false]
    rw [if_pos (by simp; omega)]
    rfl
  have e3 : SendCommand true [c1, c2] capacity c3 = (NFCStatus.OK, [c1, c2, c3]) := by
    simp only [SendCommand, Bool.not_true, Bool.false_eq_true, if_false]
    rw [if_pos (by simp; omega)]
    rfl
  have p1 : (SendCommand true [] capacity c1).2 = [c1] := by rw [e1]
  have p2 : (SendCommand true [c1] capacity c2).2 = [c1, c2] := by rw [e2]
  have p3 : (SendCommand true [c1, c2] capacity c3).2 = [c1, c2, c3] := by rw [e3]
  refine ⟨taskMainLoopRun_order mgr queue, ?_, ?_, ?_, ?_, ?_⟩
  · intro c p
    rcases c with ⟨cmd, prio, rid, td, lc, ud, ws, wp, wsec, fs, pm, hc⟩
    cases cmd <;> rfl
  · rw [e1]
  · rw [p1, e2]
  · rw [p1, p2, e3]
  · rw [p1, p2, p3, taskMainLoopRun_order]
    simp [h1, h2, h3]

/-- Witness for C9: ids 1, 2, 3 with priorities LOW, URGENT, HIGH are
delivered in order 1, 2, 3. -/
theorem scheduler_strict_fifo_witness :
    (taskMainLoopRun testMgr [cmdA, cmdB, cmdC]).map Delivery.requestId = [1, 2, 3] := by
  have h := (scheduler_strict_fifo testMgr [] cmdA cmdB cmdC 10
    rfl rfl rfl (by decide)).2.2.2.2.2
  simpa [SendCommand, cmdA, cmdB, cmdC] using h

-- ===========================================================================
-- Single-record message parsing (shared by C3 and C4)
-- ===========================================================================

/-- Parsing one encoded well-known Text record (header 0xC1, type "T"):
the decoder recovers language and text when the payload is longer than
3 bytes and the language length fits the 6-bit mask. -/
theorem parseNDEFRecord_text (lang text : List Nat)
    (hL : lang.length < 64)
    (hmin : 3 < 1 + lang.length + text.length) :
    ∃ n, parseNDEFRecord
      (0xC1 :: 0x01 :: (1 + lang.length + text.length) :: 0x54 :: lang.length :: (lang ++ text)) 0 =
    ParseOutcome.ok
      { type := NDEFRecordType.TEXT, payload := text,
        rawData := lang.length :: (lang ++ text), language := lang, mimeType := [] }
      n := by
  refine ⟨4 + (1 + lang.length + text.length), ?_⟩
  have hmask : lang.length &&& 63 = lang.length := by
    have := Nat.and_pow_two_sub_one_eq_mod lang.length 6
    simpa [Nat.mod_eq_of_lt hL] using this
  unfold parseNDEFRecord
  rw [if_neg (by simp)]
  simp only [List.get?, show ((193:Nat) &&& 8) = 0 from by decide,
    show ((193:Nat) &&& 7) = 1 from by decide]
  norm_num
  have htake : List.take (1 + lang.length + text.length) (lang.length :: (lang ++ text)) =
      lang.length :: (lang ++ text) :=
    List.take_of_length_le (by simp; omega)
  simp only [htake, List.head?_cons, Option.getD_some, List.tail_cons, hmask]
  rw [if_neg (by omega), if_neg (by omega), if_pos (by decide), if_pos hmin, if_neg (by omega)]
  have hcount : 1 + lang.length + text.length - 1 - lang.length = text.length := by omega
  rw [hcount, Nat.add_comm 1 lang.length, List.drop_succ_cons, List.drop_left,
    List.take_length, List.take_left]

/-- Message-level version: the one-record Text message stream decodes to
exactly one Text record (the ME bit of the single header stops the loop). -/
theorem parse_single_text (lang text : List Nat)
    (hL : lang.length < 64) (hmin : 3 < 1 + lang.length + text.length) :
    parseNDEFMessage
      (0xC1 :: 0x01 :: (1 + lang.length + text.length) :: 0x54 :: lang.length :: (lang ++ text)) =
    some [{ type := NDEFRecordType.TEXT, payload := text,
            rawData := lang.length :: (lang ++ text), language := lang, mimeType := [] }] := by
  obtain ⟨n, hn⟩ := parseNDEFRecord_text lang text hL hmin
  unfold parseNDEFMessage
  simp only [parseNDEFMessageGo]
  rw [if_pos (by simp), hn]
  simp only [List.getD, List.get?, Option.getD_some]
  rw [if_pos (by decide)]

/-- Parsing one encoded well-known URI record (header 0xC1, type "U"):
the decoder prepends the table entry of the prefix code to the remainder. -/
theorem parseNDEFRecord_uri (code : Nat) (tail : List Nat)
    (hcode : code < 36) (hne : tail ≠ []) :
    ∃ n, parseNDEFRecord (0xC1 :: 0x01 :: (1 + tail.length) :: 0x55 :: code :: tail) 0 =
      ParseOutcome.ok
        { type := NDEFRecordType.URI,
          payload := uriPrefixTable.getD code [] ++ tail,
          rawData := code :: tail, language := [], mimeType := [] } n := by
  refine ⟨4 + (1 + tail.length), ?_⟩
  have hpos : 0 < tail.length := List.length_pos.mpr hne
  unfold parseNDEFRecord
  rw [if_neg (by simp)]
  simp only [List.get?, show ((193:Nat) &&& 8) = 0 from by decide,
    show ((193:Nat) &&& 7) = 1 from by decide]
  norm_num
  have htake : List.take (1 + tail.length) (code :: tail) = code :: tail :=
    List.take_of_length_le (by simp; omega)
  simp only [htake, List.head?_cons, Option.getD_some, List.tail_cons]
  rw [if_neg (by omega), if_neg (by omega), if_neg (by decide), if_pos (by decide),
    if_pos (by omega), if_pos (by rw [show uriPrefixTable.length = 36 from rfl]; omega)]
  rw [List.take_length]

/-- Message-level version for a one-record URI message. -/
theorem parse_single_uri (code : Nat) (tail : List Nat)
    (hcode : code < 36) (hne : tail ≠ []) :
    parseNDEFMessage (0xC1 :: 0x01 :: (1 + tail.length) :: 0x55 :: code :: tail) =
      some [{ type := NDEFRecordType.URI,
              payload := uriPrefixTable.getD code [] ++ tail,
              rawData := code :: tail, language := [], mimeType := [] }] := by
  obtain ⟨n, hn⟩ := parseNDEFRecord_uri code tail hcode hne
  unfold parseNDEFMessage
  simp only [parseNDEFMessageGo]
  rw [if_pos (by simp), hn]
  simp only [List.getD, List.get?, Option.getD_some]
  rw [if_pos (by decide)]

/-- Core of the URI round trip: whenever the encoder's prefix code and the
stripped remainder reassemble (through the decoder's table) to the original
URI, encode-then-decode reproduces it. -/
theorem uri_encode_decode_of (uri rest : List Nat) (code : Nat)
    (hcode : code < 36)
    (hc : getURIPrefixCode uri = code)
    (hs : stripWebPrefixes uri = rest)
    (hne : rest ≠ [])
    (hlen : rest.length ≤ 254)
    (hpre : uriPrefixTable.getD code [] ++ rest = uri) :
    encodeDecode [{ type := NDEFRecordType.URI, payload := uri }] =
      some [{ type := NDEFRecordType.URI, payload := uri,
              rawData := code :: rest, language := [], mimeType := [] }] := by
  have hmod : (rest.length + 1) % 256 = 1 + rest.length := by
    rw [Nat.mod_eq_of_lt (by omega)]
    omega
  unfold encodeDecode createNDEFMessageBytes createNDEFMessage encodeRecords createNDEFRecord
  simp only [hc, hs, buildRecordBytes, bytesU, applyMessageFlags, applyEndFlag, orHead,
    encodeRecords, Option.some_bind, Option.map_some', List.flatten_cons, List.flatten_nil,
    List.append_nil, List.cons_append, List.nil_append, List.length_cons, List.length_nil,
    hmod, show ((1:Nat) ||| 128 ||| 64) = 193 from by decide,
    show ((0:Nat) + 1) % 256 = 1 from by decide]
  rw [parse_single_uri code rest hcode hne, hpre]

-- ===========================================================================
-- C3: URI round trip (corrected)
-- ===========================================================================

/-- Counterexample for C3 as stated: the URI "tel:1" begins with the table
entry "tel:" (the encoder assigns it prefix code 0x05), but the encoder
strips only the four web prefixes, so decoding prepends "tel:" to the
still-complete URI and yields "tel:tel:1" instead of "tel:1". -/
theorem uri_roundtrip_tel_counterexample :
    encodeDecode [{ type := NDEFRecordType.URI,
                    payload := [0x74, 0x65, 0x6C, 0x3A, 0x31] }] =
      some [{ type := NDEFRecordType.URI,
              payload := [0x74, 0x65, 0x6C, 0x3A, 0x74, 0x65, 0x6C, 0x3A, 0x31],
              rawData := [0x05, 0x74, 0x65, 0x6C, 0x3A, 0x31],
              language := [], mimeType := [] }] ∧
    ([0x74, 0x65, 0x6C, 0x3A, 0x74, 0x65, 0x6C, 0x3A, 0x31] : List Nat) ≠
      [0x74, 0x65, 0x6C, 0x3A, 0x31] := by decide

/-- C3 (amended): for every URI whose beginning matches one of the four web
entries of the prefix table — i.e. the encoder assigns it one of the codes
1–4, the only codes whose prefixes are also stripped — with a nonempty
remainder of at most 254 bytes, encoding a one-record NDEF message and
decoding the produced bytes yields exactly one URI record whose decoded
payload equals the original URI. -/
theorem uri_roundtrip (uri : List Nat)
    (hc1 : 1 ≤ getURIPrefixCode uri) (hc4 : getURIPrefixCode uri ≤ 4)
    (hne : stripWebPrefixes uri ≠ [])
    (hlen : (stripWebPrefixes uri).length ≤ 254) :
    encodeDecode [{ type := NDEFRecordType.URI, payload := uri }] =
      some [{ type := NDEFRecordType.URI, payload := uri,
              rawData := getURIPrefixCode uri :: stripWebPrefixes uri,
              language := [], mimeType := [] }] := by
  by_cases h1 : uri.take 11 = bytesHttpWww
  · have hc : getURIPrefixCode uri = 1 := by unfold getURIPrefixCode; rw [if_pos h1]
    have hs : stripWebPrefixes uri = uri.drop 11 := by unfold stripWebPrefixes; rw [if_pos h1]
    rw [hs] at hne hlen
    rw [hc, hs]
    exact uri_encode_decode_of uri (uri.drop 11) 1 (by omega) hc hs hne hlen
      (by show bytesHttpWww ++ uri.drop 11 = uri; rw [← h1]; exact List.take_append_drop 11 uri)
  · by_cases h2 : uri.take 12 = bytesHttpsWww
    · have hc : getURIPrefixCode uri = 2 := by
        unfold getURIPrefixCode; rw [if_neg h1, if_pos h2]
      have hs : stripWebPrefixes uri = uri.drop 12 := by
        unfold stripWebPrefixes; rw [if_neg h1, if_pos h2]
      rw [hs] at hne hlen
      rw [hc, hs]
      exact uri_encode_decode_of uri (uri.drop 12) 2 (by omega) hc hs hne hlen
        (by show bytesHttpsWww ++ uri.drop 12 = uri; rw [← h2]; exact List.take_append_drop 12 uri)
    · by_cases h3 : uri.take 7 = bytesHttp
      · have hc : getURIPrefixCode uri = 3 := by
          unfold getURIPrefixCode; rw [if_neg h1, if_neg h2, if_pos h3]
        have hs : stripWebPrefixes uri = uri.drop 7 := by
          unfold stripWebPrefixes; rw [if_neg h1, if_neg h2, if_pos h3]
        rw [hs] at hne hlen
        rw [hc, hs]
        exact uri_encode_decode_of uri (uri.drop 7) 3 (by omega) hc hs hne hlen
          (by show bytesHttp ++ uri.drop 7 = uri; rw [← h3]; exact List.take_append_drop 7 uri)
      · by_cases h4 : uri.take 8 = bytesHttps
        · have hc : getURIPrefixCode uri = 4 := by
            unfold getURIPrefixCode; rw [if_neg h1, if_neg h2, if_neg h3, if_pos h4]
          have hs : stripWebPrefixes uri = uri.drop 8 := by
            unfold stripWebPrefixes; rw [if_neg h1, if_neg h2, if_neg h3, if_pos h4]
          rw [hs] at hne hlen
          rw [hc, hs]
          exact uri_encode_decode_of uri (uri.drop 8) 4 (by omega) hc hs hne hlen
            (by show bytesHttps ++ uri.drop 8 = uri; rw [← h4]; exact List.take_append_drop 8 uri)
        · exfalso
          unfold getURIPrefixCode at hc1 hc4
          rw [if_neg h1, if_neg h2, if_neg h3, if_neg h4] at hc1 hc4
          split_ifs at hc1 hc4 <;> omega

/-- Witness for C3 (amended) at the URI "http://a". -/
theorem uri_roundtrip_witness :
    encodeDecode [{ type := NDEFRecordType.URI,
                    payload := [0x68, 0x74, 0x74, 0x70, 0x3A, 0x2F, 0x2F, 0x61] }] =
      some [{ type := NDEFRecordType.URI,
              payload := [0x68, 0x74, 0x74, 0x70, 0x3A, 0x2F, 0x2F, 0x61],
              rawData := [0x03, 0x61], language := [], mimeType := [] }] :=
  uri_roundtrip [0x68, 0x74, 0x74, 0x70, 0x3A, 0x2F, 0x2F, 0x61]
    (by decide) (by decide) (by decide) (by decide)

-- ===========================================================================
-- C4: Text round trip (corrected)
-- ===========================================================================

/-- Counterexample for C4 as stated: the Text record with text "a" and empty
language code encodes to a 2-byte payload, the decoder's TEXT branch runs
only when the payload length exceeds 3, so the decoded record has empty
payload instead of "a". -/
theorem text_roundtrip_counterexample :
    encodeDecode [{ type := NDEFRecordType.TEXT, payload := [0x61], language := [] }] =
      some [{ type := NDEFRecordType.TEXT, payload := [],
              rawData := [0x00, 0x61], language := [], mimeType := [] }] ∧
    ([] : List Nat) ≠ [0x61] := by decide

/-- C4 (amended): for every text and language code such that the language
code is shorter than 64 bytes (the decoder masks the length byte with
0x3F), the combined length exceeds 2 (the decoder's TEXT branch requires a
payload longer than 3 bytes), and the encoded payload length fits one byte,
encoding a one-record NDEF message and decoding the produced bytes yields
exactly one Text record with the original text and language code. -/
theorem text_roundtrip (text lang : List Nat)
    (hL : lang.length < 64)
    (hmin : 3 < 1 + lang.length + text.length)
    (hmax : 1 + lang.length + text.length ≤ 255) :
    encodeDecode [{ type := NDEFRecordType.TEXT, payload := text, language := lang }] =
      some [{ type := NDEFRecordType.TEXT, payload := text,
              rawData := lang.length :: (lang ++ text), language := lang, mimeType := [] }] := by
  have hmod : lang.length % 256 = lang.length := Nat.mod_eq_of_lt (by omega)
  have hmod2 : ((lang ++ text).length + 1) % 256 = 1 + lang.length + text.length := by
    rw [Nat.mod_eq_of_lt (by simp; omega)]
    simp
    omega
  unfold encodeDecode createNDEFMessageBytes createNDEFMessage encodeRecords createNDEFRecord
  simp only [buildRecordBytes, bytesT, applyMessageFlags, applyEndFlag, orHead,
    encodeRecords, Option.some_bind, Option.map_some', List.flatten_cons, List.flatten_nil,
    List.append_nil, List.cons_append, List.nil_append, List.length_cons, List.length_nil,
    hmod, hmod2, show ((1:Nat) ||| 128 ||| 64) = 193 from by decide,
    show ((0:Nat) + 1) % 256 = 1 from by decide]
  exact parse_single_text lang text hL hmin

/-- Witness for C4 (amended) at text "abc" with language code "en". -/
theorem text_roundtrip_witness :
    encodeDecode [{ type := NDEFRecordType.TEXT, payload := [0x61, 0x62, 0x63],
                    language := [0x65, 0x6E] }] =
      some [{ type := NDEFRecordType.TEXT, payload := [0x61, 0x62, 0x63],
              rawData := [0x02, 0x65, 0x6E, 0x61, 0x62, 0x63],
              language := [0x65, 0x6E], mimeType := [] }] :=
  text_roundtrip [0x61, 0x62, 0x63] [0x65, 0x6E] (by decide) (by decide) (by decide)

end SpoolKey
